import Mathlib

/-!
Shallow embedding of the OAuth2 token-refresh authenticator of
`tap_hubspot` (files `tap_hubspot/hotglue_auth.py` and
`tap_hubspot/tap.py`).

Modelling conventions:
* Python attribute values that the code stores dynamically
  (`self._tap.access_token`, `self._tap.expires_in`) are modelled by
  `PyVal` (Python `None`, a string, or an integer), so that Python
  truthiness and the dynamic assignments of `update_access_token` are
  represented exactly.
* Machine time is an `Int` parameter: `now` is the rounded UTC timestamp
  read inside `is_token_valid`, `request_time` the one read at the top of
  `update_access_token` (line 97, captured before the POST is issued).
* The HTTP layer is a parameter: a refresh either fails at the socket
  (`Option.none`, a `requests` connection error) or yields an
  `HttpResponse` carrying the final status and the result of parsing the
  body as JSON (`Option.none` when the body is not valid JSON, in which
  case `Response.json()` raises `JSONDecodeError`).
* Exceptions are values of `PyErr`; a function that mutates `self._tap`
  returns the (possibly partially) mutated state next to the error, since
  Python assignments performed before an exception persist.
* The tap configuration is the raw config dict (`List (String × String)`),
  so that a missing key surfaces as `KeyError` exactly where the code
  subscripts it.
-/

namespace TapHubspot

/-- A dynamically typed Python value as stored on the tap object:
`None`, a string, or an integer. -/
inductive PyVal where
  | vnone : PyVal
  | vstr : String → PyVal
  | vint : Int → PyVal
  deriving DecidableEq

/-- Python truthiness of a `PyVal`: `None`, the empty string and the
integer 0 are falsy, everything else truthy. -/
def pyTruthy : PyVal → Bool
  | PyVal.vnone => false
  | PyVal.vstr s => !(s == "")
  | PyVal.vint n => !(n == 0)

/-- Python `str()` of a `PyVal`, as used by the f-string
`f"Bearer \x7bself._tap.access_token\x7d"`. -/
def pyStr : PyVal → String
  | PyVal.vnone => "None"
  | PyVal.vstr s => s
  | PyVal.vint n => toString n

/-- The credential state the authenticator keeps on the shared tap
object: `self._tap.access_token` and `self._tap.expires_in` (the latter,
despite its name, holds an absolute expiry timestamp). `__init__`
initialises both attributes to `None` when absent. -/
structure TapState where
  access_token : PyVal
  expires_in : PyVal
  deriving DecidableEq

/-- The state right after `__init__` on a fresh tap object: both
attributes set to `None` (lines 26-29). -/
def initState : TapState := ⟨PyVal.vnone, PyVal.vnone⟩

/-- Python exceptions the modelled code can raise. `runtimeError` is the
wrapped OAuth failure of line 104; it structurally carries what the
message interpolates: the parsed JSON body and (via the chained
`HTTPError` text) the HTTP status. -/
inductive PyErr where
  | connectionError : PyErr
  | runtimeError : List (String × PyVal) → Nat → PyErr
  | jsonDecodeError : PyErr
  | keyError : String → PyErr
  | typeError : PyErr
  | valueError : PyErr
  deriving DecidableEq

/-- First-match association-list lookup, modelling `d[k]`-style access
on Python dicts (keys are unique in every dict the code builds). -/
def alistLookup {α : Type} : List (String × α) → String → Option α
  | [], _ => Option.none
  | (k, v) :: rest, key => if k == key then some v else alistLookup rest key

/-- Python dict item assignment `d[k] = v`: replace the binding when the
key is present, otherwise add it. -/
def setItem : List (String × String) → String → String → List (String × String)
  | [], key, v => [(key, v)]
  | (k, w) :: rest, key, v =>
      if k == key then (key, v) :: rest else (k, w) :: setItem rest key v

/-- The raw tap configuration dict. Values are kept as strings: only the
four credential fields are ever read by the authenticator, and the spec
types all four as strings. -/
abbrev Config := List (String × String)

/-- The final HTTP response `requests.post` hands back: its status code
and the result of parsing its body as JSON (`Option.none` when the body
is not valid JSON, making `Response.json()` raise `JSONDecodeError`). -/
structure HttpResponse where
  status : Nat
  json : Option (List (String × PyVal))
  deriving DecidableEq

/-- `Response.raise_for_status()` raises `HTTPError` exactly for 4xx and
5xx status codes. -/
def raise_for_status_raises (st : Nat) : Bool :=
  decide (400 ≤ st ∧ st < 600)

/-- The constant `self._auth_endpoint` set in `__init__` (line 31). -/
def auth_endpoint_value : String := "https://api.hubapi.com/oauth/v1/token"

/-- The `auth_endpoint` property: raises `ValueError` when the stored
endpoint is falsy, otherwise returns it (lines 48-60). -/
def auth_endpoint : Except PyErr String :=
  if auth_endpoint_value == "" then Except.error PyErr.valueError
  else Except.ok auth_endpoint_value

/-- `oauth_request_body` (lines 62-71): builds the token-exchange form
body from the config dict; subscripting a missing key raises `KeyError`
at that key, in the evaluation order of the dict literal. -/
def oauth_request_body (cfg : Config) : Except PyErr (List (String × String)) :=
  match alistLookup cfg "client_id" with
  | Option.none => Except.error (PyErr.keyError "client_id")
  | some cid =>
  match alistLookup cfg "client_secret" with
  | Option.none => Except.error (PyErr.keyError "client_secret")
  | some csec =>
  match alistLookup cfg "redirect_uri" with
  | Option.none => Except.error (PyErr.keyError "redirect_uri")
  | some ruri =>
  match alistLookup cfg "refresh_token" with
  | Option.none => Except.error (PyErr.keyError "refresh_token")
  | some rtok =>
    Except.ok [("client_id", cid), ("client_secret", csec), ("redirect_uri", ruri),
               ("refresh_token", rtok), ("grant_type", "refresh_token")]

/-- The `oauth_request_payload` property (lines 81-88) just returns
`oauth_request_body`. -/
def oauth_request_payload (cfg : Config) : Except PyErr (List (String × String)) :=
  oauth_request_body cfg

/-- `is_token_valid` (lines 73-79):
`not bool((not access_token) or (not expires_in) or (expires_in - now < 60))`,
with Python short-circuiting: the subtraction is only evaluated when
`expires_in` is truthy, and raises `TypeError` when the truthy value is
not an integer. -/
def is_token_valid (s : TapState) (now : Int) : Except PyErr Bool :=
  if !pyTruthy s.access_token then Except.ok false
  else if !pyTruthy s.expires_in then Except.ok false
  else match s.expires_in with
    | PyVal.vint e => Except.ok (!(decide (e - now < 60)))
    | _ => Except.error PyErr.typeError

/-- One POST `requests.post(url, data=body)` issued by a refresh. -/
structure PostReq where
  url : String
  body : List (String × String)
  deriving DecidableEq

/-- Outcome of one call to `update_access_token`: the exception it raised
(if any), the state of the tap attributes after the call (Python
assignments made before an exception persist), and the POSTs it issued. -/
structure RefreshOutcome where
  err : Option PyErr
  state : TapState
  posts : List PostReq
  deriving DecidableEq

/-- `update_access_token` (lines 91-111). Control flow in source order:
capture `request_time`; build the payload (may raise `KeyError`); read
`auth_endpoint`; issue the POST (a socket failure raises a requests
connection error); `raise_for_status` on 4xx/5xx enters the except block,
whose message evaluates `token_response.json()` (raising
`JSONDecodeError` on a non-JSON body) before the `RuntimeError` is
raised; otherwise parse the body, assign `access_token` from the
`"access_token"` field (KeyError when missing, state untouched), then
assign `expires_in := request_time + body["expires_in"]` (KeyError when
missing, TypeError when not an integer; in both cases `access_token` has
already been overwritten). -/
def update_access_token (cfg : Config) (s : TapState) (resp : Option HttpResponse)
    (request_time : Int) : RefreshOutcome :=
  match oauth_request_payload cfg with
  | Except.error e => ⟨some e, s, []⟩
  | Except.ok payload =>
    match auth_endpoint with
    | Except.error e => ⟨some e, s, []⟩
    | Except.ok url =>
      let post : PostReq := ⟨url, payload⟩
      match resp with
      | Option.none => ⟨some PyErr.connectionError, s, [post]⟩
      | some r =>
        if raise_for_status_raises r.status then
          match r.json with
          | Option.none => ⟨some PyErr.jsonDecodeError, s, [post]⟩
          | some j => ⟨some (PyErr.runtimeError j r.status), s, [post]⟩
        else
          match r.json with
          | Option.none => ⟨some PyErr.jsonDecodeError, s, [post]⟩
          | some j =>
            match alistLookup j "access_token" with
            | Option.none => ⟨some (PyErr.keyError "access_token"), s, [post]⟩
            | some tokv =>
              match alistLookup j "expires_in" with
              | Option.none =>
                  ⟨some (PyErr.keyError "expires_in"), ⟨tokv, s.expires_in⟩, [post]⟩
              | some (PyVal.vint e) =>
                  ⟨Option.none, ⟨tokv, PyVal.vint (request_time + e)⟩, [post]⟩
              | some _ =>
                  ⟨some PyErr.typeError, ⟨tokv, s.expires_in⟩, [post]⟩

/-- Outcome of one call to the `auth_headers` property: the exception it
raised (if any), the credential state afterwards, the header dict it
returned (when it returned), how many times it invoked
`update_access_token`, and the POSTs issued. -/
structure AuthResult where
  err : Option PyErr
  state : TapState
  headers : Option (List (String × String))
  refreshCalls : Nat
  posts : List PostReq
  deriving DecidableEq

/-- The `auth_headers` property (lines 33-46): refresh once when
`is_token_valid` is false, then return the base headers of the parent
class with `"Authorization"` bound to `"Bearer " ++ str(access_token)`
for the access token current at that point. `base` is the dict
`super().auth_headers` returns. -/
def auth_headers (base : List (String × String)) (cfg : Config) (s : TapState)
    (now request_time : Int) (resp : Option HttpResponse) : AuthResult :=
  match is_token_valid s now with
  | Except.error e => ⟨some e, s, Option.none, 0, []⟩
  | Except.ok true =>
      ⟨Option.none, s,
       some (setItem base "Authorization" ("Bearer " ++ pyStr s.access_token)), 0, []⟩
  | Except.ok false =>
      match update_access_token cfg s resp request_time with
      | ⟨some e, s1, ps⟩ => ⟨some e, s1, Option.none, 1, ps⟩
      | ⟨Option.none, s1, ps⟩ =>
          ⟨Option.none, s1,
           some (setItem base "Authorization" ("Bearer " ++ pyStr s1.access_token)),
           1, ps⟩

/-- The `required=True` property names of `TapHubspot.config_jsonschema`
(`tap.py`, lines 93-124): `client_id`, `client_secret`, `refresh_token`
and `properties`. `start_date` is optional and `redirect_uri` is not
declared at all. -/
def config_required_fields : List String :=
  ["client_id", "client_secret", "refresh_token", "properties"]

/-- Shallow model of startup config validation against
`config_jsonschema`: the config dict is accepted only when every
`required=True` property is present (the JSON-schema `required` check;
value typing is out of scope for the claims considered here). -/
def config_conforms (cfg : Config) : Bool :=
  config_required_fields.all (fun k => (alistLookup cfg k).isSome)

/-! ### Concrete fixtures used by witnesses and counterexamples -/

/-- A complete configuration dict. -/
def cfgGood : Config :=
  [("client_id", "cid"), ("client_secret", "cs"), ("redirect_uri", "ru"),
   ("refresh_token", "rtok"), ("properties", "p")]

/-- The form body `oauth_request_body` builds from `cfgGood`. -/
def payloadGood : List (String × String) :=
  [("client_id", "cid"), ("client_secret", "cs"), ("redirect_uri", "ru"),
   ("refresh_token", "rtok"), ("grant_type", "refresh_token")]

/-- A well-formed 200 token response. -/
def respGood : HttpResponse :=
  ⟨200, some [("access_token", PyVal.vstr "abc"), ("expires_in", PyVal.vint 1800)]⟩

/-- A 200 response whose JSON body lacks the `expires_in` field. -/
def respMissingExpiry : HttpResponse :=
  ⟨200, some [("access_token", PyVal.vstr "new")]⟩

/-! ### Helper lemmas -/

/-- After `d[k] = v`, looking up `k` yields `v`. -/
theorem alistLookup_setItem (d : List (String × String)) (k v : String) :
    alistLookup (setItem d k v) k = some v := by
  induction d with
  | nil => simp [setItem, alistLookup]
  | cons hd tl ih =>
      rcases hd with ⟨k1, v1⟩
      by_cases h : (k1 == k) = true
      · simp [setItem, alistLookup, h]
      · simp [setItem, alistLookup, h, ih]

/-- Unfolding lemma: truthiness of an integer value. -/
theorem pyTruthy_vint (n : Int) : pyTruthy (PyVal.vint n) = !(n == 0) := rfl

/-- Unfolding lemma: truthiness of `None`. -/
theorem pyTruthy_vnone : pyTruthy PyVal.vnone = false := rfl

/-- Unfolding lemma: truthiness of a string value. -/
theorem pyTruthy_vstr (s : String) : pyTruthy (PyVal.vstr s) = !(s == "") := rfl

/-- `is_token_valid` on an integer expiry value, as a single boolean. -/
theorem is_token_valid_eq_int (s : TapState) (e now : Int)
    (hexp : s.expires_in = PyVal.vint e) :
    is_token_valid s now =
      Except.ok (pyTruthy s.access_token && !(e == 0) && !(decide (e - now < 60))) := by
  unfold is_token_valid
  rw [hexp]
  rcases Bool.eq_false_or_eq_true (pyTruthy s.access_token) with ht | ht <;>
    by_cases he : e = 0 <;> simp [pyTruthy_vint, ht, he]

/-- `is_token_valid` with an absent expiry is false. -/
theorem is_token_valid_eq_vnone (s : TapState) (now : Int)
    (hexp : s.expires_in = PyVal.vnone) :
    is_token_valid s now = Except.ok false := by
  unfold is_token_valid
  rw [hexp]
  rcases Bool.eq_false_or_eq_true (pyTruthy s.access_token) with ht | ht <;>
    simp [pyTruthy_vnone, ht]

/-- `auth_headers` on a valid credential: no refresh, header built from
the existing token. -/
theorem auth_headers_of_valid (base : List (String × String)) (cfg : Config)
    (s : TapState) (now rt : Int) (resp : Option HttpResponse)
    (hv : is_token_valid s now = Except.ok true) :
    auth_headers base cfg s now rt resp =
      ⟨Option.none, s,
       some (setItem base "Authorization" ("Bearer " ++ pyStr s.access_token)), 0, []⟩ := by
  unfold auth_headers
  rw [hv]

/-- `auth_headers` when `is_token_valid` raises: the exception
propagates before any refresh. -/
theorem auth_headers_of_error (base : List (String × String)) (cfg : Config)
    (s : TapState) (now rt : Int) (resp : Option HttpResponse) (e : PyErr)
    (hv : is_token_valid s now = Except.error e) :
    auth_headers base cfg s now rt resp = ⟨some e, s, Option.none, 0, []⟩ := by
  unfold auth_headers
  rw [hv]

/-- `auth_headers` on an invalid credential when the refresh raises:
one refresh call, the exception propagates, no header is returned. -/
theorem auth_headers_of_invalid_err (base : List (String × String)) (cfg : Config)
    (s : TapState) (now rt : Int) (resp : Option HttpResponse)
    (e : PyErr) (s1 : TapState) (ps : List PostReq)
    (hv : is_token_valid s now = Except.ok false)
    (hu : update_access_token cfg s resp rt = ⟨some e, s1, ps⟩) :
    auth_headers base cfg s now rt resp = ⟨some e, s1, Option.none, 1, ps⟩ := by
  unfold auth_headers
  rw [hv, hu]

/-- `auth_headers` on an invalid credential when the refresh succeeds:
one refresh call, header built from the refreshed token. -/
theorem auth_headers_of_invalid_ok (base : List (String × String)) (cfg : Config)
    (s : TapState) (now rt : Int) (resp : Option HttpResponse)
    (s1 : TapState) (ps : List PostReq)
    (hv : is_token_valid s now = Except.ok false)
    (hu : update_access_token cfg s resp rt = ⟨Option.none, s1, ps⟩) :
    auth_headers base cfg s now rt resp =
      ⟨Option.none, s1,
       some (setItem base "Authorization" ("Bearer " ++ pyStr s1.access_token)), 1, ps⟩ := by
  unfold auth_headers
  rw [hv, hu]

/-- On an invalid credential `auth_headers` makes exactly one call to
`update_access_token`, whether or not the refresh succeeds. -/
theorem refreshCalls_one_of_invalid (base : List (String × String)) (cfg : Config)
    (s : TapState) (now rt : Int) (resp : Option HttpResponse)
    (hv : is_token_valid s now = Except.ok false) :
    (auth_headers base cfg s now rt resp).refreshCalls = 1 := by
  rcases hu : update_access_token cfg s resp rt with ⟨err, s1, ps⟩
  rcases err with _ | e
  · rw [auth_headers_of_invalid_ok base cfg s now rt resp s1 ps hv hu]
  · rw [auth_headers_of_invalid_err base cfg s now rt resp e s1 ps hv hu]

/-- Whenever `auth_headers` returns a header dict, that dict binds
`"Authorization"` to `"Bearer " ++ str(access_token)` for the access
token current after the call. -/
theorem auth_headers_header_key (base : List (String × String)) (cfg : Config)
    (s : TapState) (now rt : Int) (resp : Option HttpResponse)
    (hs : List (String × String))
    (hhs : (auth_headers base cfg s now rt resp).headers = some hs) :
    alistLookup hs "Authorization" =
      some ("Bearer " ++ pyStr (auth_headers base cfg s now rt resp).state.access_token) := by
  cases hv : is_token_valid s now with
  | error e =>
      rw [auth_headers_of_error base cfg s now rt resp e hv] at hhs
      simp at hhs
  | ok b =>
      cases b with
      | true =>
          rw [auth_headers_of_valid base cfg s now rt resp hv] at hhs ⊢
          simp only [Option.some.injEq] at hhs
          rw [← hhs]
          exact alistLookup_setItem base "Authorization" ("Bearer " ++ pyStr s.access_token)
      | false =>
          rcases hu : update_access_token cfg s resp rt with ⟨err, s1, ps⟩
          rcases err with _ | e
          · rw [auth_headers_of_invalid_ok base cfg s now rt resp s1 ps hv hu] at hhs ⊢
            simp only [Option.some.injEq] at hhs
            rw [← hhs]
            exact alistLookup_setItem base "Authorization" ("Bearer " ++ pyStr s1.access_token)
          · rw [auth_headers_of_invalid_err base cfg s now rt resp e s1 ps hv hu] at hhs
            simp at hhs

/-- The endpoint constant is nonempty, so the `auth_endpoint` property
never raises. -/
theorem auth_endpoint_eq : auth_endpoint = Except.ok auth_endpoint_value := rfl

/-- Successful refresh, computed: full config, non-raising status, JSON
body holding `access_token` and an integer `expires_in`. -/
theorem update_access_token_success (cfg : Config) (s : TapState) (r : HttpResponse)
    (T : Int) (payload : List (String × String)) (j : List (String × PyVal))
    (tokv : PyVal) (E : Int)
    (hcfg : oauth_request_body cfg = Except.ok payload)
    (hrs : raise_for_status_raises r.status = false)
    (hj : r.json = some j)
    (htok : alistLookup j "access_token" = some tokv)
    (hE : alistLookup j "expires_in" = some (PyVal.vint E)) :
    update_access_token cfg s (some r) T =
      ⟨Option.none, ⟨tokv, PyVal.vint (T + E)⟩, [⟨auth_endpoint_value, payload⟩]⟩ := by
  unfold update_access_token oauth_request_payload
  rw [hcfg, auth_endpoint_eq]
  simp [hrs, hj, htok, hE]

/-- Whenever the payload can be built, a refresh issues exactly one
POST, to the configured endpoint with that payload, on every
success and failure path. -/
theorem update_access_token_posts (cfg : Config) (s : TapState)
    (resp : Option HttpResponse) (T : Int) (payload : List (String × String))
    (hcfg : oauth_request_body cfg = Except.ok payload) :
    (update_access_token cfg s resp T).posts = [⟨auth_endpoint_value, payload⟩] := by
  unfold update_access_token oauth_request_payload
  rw [hcfg, auth_endpoint_eq]
  cases resp with
  | none => simp
  | some r =>
      cases hj : r.json with
      | none =>
          by_cases hrs : raise_for_status_raises r.status = true <;> simp [hrs, hj]
      | some j =>
          by_cases hrs : raise_for_status_raises r.status = true
          · simp [hrs, hj]
          · cases htok : alistLookup j "access_token" with
            | none => simp [hrs, hj, htok]
            | some tokv =>
                cases hE : alistLookup j "expires_in" with
                | none => simp [hrs, hj, htok, hE]
                | some v => cases v <;> simp [hrs, hj, htok, hE]

/-- A credential that `is_token_valid` accepts has an integer expiry at
least 60 seconds away. -/
theorem is_token_valid_true_elim (s : TapState) (now : Int)
    (hv : is_token_valid s now = Except.ok true) :
    ∃ e : Int, s.expires_in = PyVal.vint e ∧ 60 ≤ e - now := by
  cases hexp : s.expires_in with
  | vnone =>
      rw [is_token_valid_eq_vnone s now hexp] at hv
      simp at hv
  | vstr v =>
      unfold is_token_valid at hv
      rw [hexp] at hv
      rcases Bool.eq_false_or_eq_true (pyTruthy s.access_token) with ht | ht <;>
        by_cases hvv : v = "" <;> simp [ht, hvv, pyTruthy_vstr] at hv
  | vint e =>
      rw [is_token_valid_eq_int s e now hexp] at hv
      refine ⟨e, rfl, ?_⟩
      rcases Bool.eq_false_or_eq_true (pyTruthy s.access_token) with ht | ht
      · rw [ht] at hv
        by_cases he : e = 0
        · simp [he] at hv
        · simp [he] at hv
          omega
      · rw [ht] at hv
        simp at hv

/-! ### Claim theorems -/

/-- C1: For every Credential state of the data model (expiry absent or
an integer UNIX timestamp, and — presence being decided by truthiness,
as the code does — access token and expiry both present or both absent)
and every nonnegative check time `now`, one call to the `auth_headers`
property triggers exactly one refresh before returning when the token is
absent or `expires_at - now < 60`, triggers zero refreshes when
`expires_at - now ≥ 60`, and any mapping it returns binds the key
`"Authorization"` to `"Bearer <access_token>"` for the access token
current after the call. -/
theorem C1_get_auth_header_refresh_discipline
    (base : List (String × String)) (cfg : Config) (s : TapState)
    (now rt : Int) (resp : Option HttpResponse)
    (hnow : 0 ≤ now)
    (hinv : pyTruthy s.access_token = pyTruthy s.expires_in)
    (hty : s.expires_in = PyVal.vnone ∨ ∃ e : Int, s.expires_in = PyVal.vint e) :
    ((pyTruthy s.access_token = false ∨
        (∀ e : Int, s.expires_in = PyVal.vint e → e - now < 60)) →
      (auth_headers base cfg s now rt resp).refreshCalls = 1)
    ∧ ((∃ e : Int, s.expires_in = PyVal.vint e ∧ 60 ≤ e - now) →
      (auth_headers base cfg s now rt resp).refreshCalls = 0)
    ∧ (∀ hs : List (String × String),
        (auth_headers base cfg s now rt resp).headers = some hs →
        alistLookup hs "Authorization" =
          some ("Bearer " ++ pyStr (auth_headers base cfg s now rt resp).state.access_token)) := by
  refine ⟨?_, ?_, fun hs hhs => auth_headers_header_key base cfg s now rt resp hs hhs⟩
  · intro h
    apply refreshCalls_one_of_invalid
    rcases hty with hx | ⟨e, hx⟩
    · exact is_token_valid_eq_vnone s now hx
    · rw [is_token_valid_eq_int s e now hx]
      rcases Bool.eq_false_or_eq_true (pyTruthy s.access_token) with ht | ht
      · rcases h with h | h
        · rw [ht] at h
          simp at h
        · have he2 : e - now < 60 := h e hx
          have hd : decide (e - now < 60) = true := decide_eq_true he2
          simp [ht, hd]
      · simp [ht]
  · rintro ⟨e, hx, hlt⟩
    have he0 : ¬(e = 0) := by omega
    have ht : pyTruthy s.access_token = true := by
      rw [hinv, hx, pyTruthy_vint]
      simp [he0]
    have h1 : (e == 0) = false := by simp [he0]
    have h2 : decide (e - now < 60) = false := decide_eq_false (by omega)
    have hv : is_token_valid s now = Except.ok true := by
      rw [is_token_valid_eq_int s e now hx, ht, h1, h2]
      rfl
    rw [auth_headers_of_valid base cfg s now rt resp hv]

/-- C1 witness: at the fresh state (token and expiry both `None`),
`now = 1000`, full config and a good response, exactly one refresh is
triggered. -/
theorem C1_witness_fresh_state :
    (auth_headers [] cfgGood initState 1000 1000 (some respGood)).refreshCalls = 1 :=
  (C1_get_auth_header_refresh_discipline [] cfgGood initState 1000 1000 (some respGood)
      (by norm_num) rfl (Or.inl rfl)).1 (Or.inl rfl)

/-- C2 (code bug): a 2xx refresh response whose JSON body holds
`access_token` but lacks `expires_in` makes `update_access_token` raise
`KeyError` (not the RuntimeError of line 104) only after line 108 has
already overwritten `access_token`: the prior credential
(`"old"`, 5000) is left partially updated as (`"new"`, 5000). -/
theorem C2_partial_update_on_missing_expires_in :
    update_access_token cfgGood ⟨PyVal.vstr "old", PyVal.vint 5000⟩
        (some respMissingExpiry) 1000 =
      ⟨some (PyErr.keyError "expires_in"), ⟨PyVal.vstr "new", PyVal.vint 5000⟩,
       [⟨auth_endpoint_value, payloadGood⟩]⟩ := by decide

/-- C3: after a successful refresh whose request was sent at time `T`
(the timestamp line 97 captures before the POST), against a 2xx
response with integer `expires_in = E` and access token field `tokv`,
the stored expiry is exactly `T + E` and the stored access token is
exactly the response field. -/
theorem C3_refresh_success_sets_token_and_expiry
    (cfg : Config) (s : TapState) (r : HttpResponse) (T : Int)
    (payload : List (String × String)) (j : List (String × PyVal))
    (tokv : PyVal) (E : Int)
    (hcfg : oauth_request_body cfg = Except.ok payload)
    (h2xx : 200 ≤ r.status ∧ r.status < 300)
    (hj : r.json = some j)
    (htok : alistLookup j "access_token" = some tokv)
    (hE : alistLookup j "expires_in" = some (PyVal.vint E)) :
    update_access_token cfg s (some r) T =
      ⟨Option.none, ⟨tokv, PyVal.vint (T + E)⟩, [⟨auth_endpoint_value, payload⟩]⟩ := by
  have hrs : raise_for_status_raises r.status = false := by
    unfold raise_for_status_raises
    apply decide_eq_false
    omega
  exact update_access_token_success cfg s r T payload j tokv E hcfg hrs hj htok hE

/-- C3 witness: the end-to-end scenario of the spec: fresh state,
request sent at `T = 1000`, response `expires_in = 1800`, token
`"abc"`; the stored expiry is 2800 and the token `"abc"`. -/
theorem C3_witness_scenario :
    update_access_token cfgGood initState (some respGood) 1000 =
      ⟨Option.none, ⟨PyVal.vstr "abc", PyVal.vint 2800⟩,
       [⟨auth_endpoint_value, payloadGood⟩]⟩ :=
  C3_refresh_success_sets_token_and_expiry cfgGood initState respGood 1000 payloadGood
    [("access_token", PyVal.vstr "abc"), ("expires_in", PyVal.vint 1800)]
    (PyVal.vstr "abc") 1800 rfl (by decide) rfl rfl rfl

/-- C4 (code bug): starting from the freshly constructed state (both
attributes `None`), a failed refresh whose 2xx body lacks `expires_in`
leaves the access token present (truthy) and the expiry absent,
breaking the both-present-or-both-absent invariant on that failure
path. -/
theorem C4_invariant_broken_by_failed_refresh :
    (update_access_token cfgGood initState (some respMissingExpiry) 1000).state =
      ⟨PyVal.vstr "new", PyVal.vnone⟩ ∧
    pyTruthy (update_access_token cfgGood initState
        (some respMissingExpiry) 1000).state.access_token = true ∧
    pyTruthy (update_access_token cfgGood initState
        (some respMissingExpiry) 1000).state.expires_in = false := by
  decide

/-- C5 counterexample: fresh state, check time and request time 1000,
provider responds 200 with `expires_in = 30`. The call returns
successfully with header `Bearer abc`, yet the stored expiry 1030 is
only 30 seconds past the check time: the claimed 60-second validity on
successful return fails when the response grants fewer than 60
seconds. -/
theorem C5_counterexample_short_expires_in :
    (auth_headers [] cfgGood initState 1000 1000
        (some ⟨200, some [("access_token", PyVal.vstr "abc"),
                          ("expires_in", PyVal.vint 30)]⟩)).err = Option.none ∧
    (auth_headers [] cfgGood initState 1000 1000
        (some ⟨200, some [("access_token", PyVal.vstr "abc"),
                          ("expires_in", PyVal.vint 30)]⟩)).headers =
      some [("Authorization", "Bearer abc")] ∧
    (auth_headers [] cfgGood initState 1000 1000
        (some ⟨200, some [("access_token", PyVal.vstr "abc"),
                          ("expires_in", PyVal.vint 30)]⟩)).state.expires_in =
      PyVal.vint 1030 ∧
    ¬ (60 ≤ (1030 : Int) - 1000) := by decide

/-- C5 (amended): when `auth_headers` returns successfully without a
refresh, the stored expiry satisfies `expires_at - now ≥ 60` at the
moment of the check; when it refreshed, the stored expiry is
`request_time + expires_in` from the provider response, and the
60-second bound holds provided the response granted at least 60 seconds
and the request time is not before the check time — the code performs
no validity re-check after a refresh. -/
theorem C5_amended_validity_on_return
    (base : List (String × String)) (cfg : Config) (s : TapState)
    (now rt : Int) (resp : Option HttpResponse) :
    ((auth_headers base cfg s now rt resp).refreshCalls = 0 →
      (auth_headers base cfg s now rt resp).err = Option.none →
      ∃ e : Int, s.expires_in = PyVal.vint e ∧ 60 ≤ e - now)
    ∧ (∀ (r : HttpResponse) (j : List (String × PyVal)) (tokv : PyVal) (E : Int)
        (payload : List (String × String)),
        resp = some r → r.json = some j →
        alistLookup j "access_token" = some tokv →
        alistLookup j "expires_in" = some (PyVal.vint E) →
        raise_for_status_raises r.status = false →
        oauth_request_body cfg = Except.ok payload →
        (auth_headers base cfg s now rt resp).refreshCalls = 1 →
        60 ≤ E → now ≤ rt →
        ∃ e : Int, (auth_headers base cfg s now rt resp).state.expires_in =
            PyVal.vint e ∧ 60 ≤ e - now) := by
  constructor
  · intro hrc herr
    cases hv : is_token_valid s now with
    | error e =>
        rw [auth_headers_of_error base cfg s now rt resp e hv] at herr
        simp at herr
    | ok b =>
        cases b with
        | true => exact is_token_valid_true_elim s now hv
        | false =>
            have := refreshCalls_one_of_invalid base cfg s now rt resp hv
            rw [hrc] at this
            simp at this
  · intro r j tokv E payload hr hj htok hE hrs hcfg hrc hE60 hnr
    subst hr
    cases hv : is_token_valid s now with
    | error e =>
        rw [auth_headers_of_error base cfg s now rt (some r) e hv] at hrc
        simp at hrc
    | ok b =>
        cases b with
        | true =>
            rw [auth_headers_of_valid base cfg s now rt (some r) hv] at hrc
            simp at hrc
        | false =>
            have hu := update_access_token_success cfg s r rt payload j tokv E
              hcfg hrs hj htok hE
            rw [auth_headers_of_invalid_ok base cfg s now rt (some r)
              ⟨tokv, PyVal.vint (rt + E)⟩ [⟨auth_endpoint_value, payload⟩] hv hu]
            refine ⟨rt + E, rfl, ?_⟩
            omega

/-- C5 amended witness: a valid credential (`"xyz"`, expiry 5000) at
check time 1000 returns without refresh and indeed has at least 60
seconds left. -/
theorem C5_witness_valid_state :
    ∃ e : Int, (⟨PyVal.vstr "xyz", PyVal.vint 5000⟩ : TapState).expires_in =
        PyVal.vint e ∧ 60 ≤ e - 1000 :=
  (C5_amended_validity_on_return [] cfgGood ⟨PyVal.vstr "xyz", PyVal.vint 5000⟩
      1000 1000 Option.none).1 rfl rfl

/-- C6 (code bug): a 401 refresh response whose body is not valid JSON
makes the except block of lines 100-106 evaluate
`token_response.json()` while building the failure message, so
`JSONDecodeError` is raised instead of the RuntimeError that would
carry the original status and body. -/
theorem C6_non_json_error_body_raises_json_decode :
    update_access_token cfgGood initState (some ⟨401, Option.none⟩) 1000 =
      ⟨some PyErr.jsonDecodeError, initState, [⟨auth_endpoint_value, payloadGood⟩]⟩ := by
  decide

/-- C7: every refresh issues exactly one POST, to the fixed HubSpot
token endpoint, whose form body consists of exactly the four credential
fields taken unchanged from the configuration plus the constant
`grant_type = "refresh_token"` — on every success and failure path. -/
theorem C7_refresh_posts_once_with_fixed_body
    (cfg : Config) (s : TapState) (resp : Option HttpResponse) (T : Int)
    (cid csec ruri rtok : String)
    (h1 : alistLookup cfg "client_id" = some cid)
    (h2 : alistLookup cfg "client_secret" = some csec)
    (h3 : alistLookup cfg "redirect_uri" = some ruri)
    (h4 : alistLookup cfg "refresh_token" = some rtok) :
    (update_access_token cfg s resp T).posts =
      [⟨"https://api.hubapi.com/oauth/v1/token",
        [("client_id", cid), ("client_secret", csec), ("redirect_uri", ruri),
         ("refresh_token", rtok), ("grant_type", "refresh_token")]⟩] := by
  have hcfg : oauth_request_body cfg = Except.ok
      [("client_id", cid), ("client_secret", csec), ("redirect_uri", ruri),
       ("refresh_token", rtok), ("grant_type", "refresh_token")] := by
    unfold oauth_request_body
    rw [h1, h2, h3, h4]
  exact update_access_token_posts cfg s resp T _ hcfg

/-- C7 witness: the concrete POST issued when refreshing with the full
config. -/
theorem C7_witness_concrete_post :
    (update_access_token cfgGood initState (some respGood) 1000).posts =
      [⟨"https://api.hubapi.com/oauth/v1/token",
        [("client_id", "cid"), ("client_secret", "cs"), ("redirect_uri", "ru"),
         ("refresh_token", "rtok"), ("grant_type", "refresh_token")]⟩] :=
  C7_refresh_posts_once_with_fixed_body cfgGood initState (some respGood) 1000
    "cid" "cs" "ru" "rtok" rfl rfl rfl rfl

/-- A configuration lacking only `redirect_uri`. -/
def cfgNoRedirect : Config :=
  [("client_id", "cid"), ("client_secret", "cs"), ("refresh_token", "rtok"),
   ("properties", "p")]

/-- C8 counterexample: a configuration lacking only `redirect_uri`
passes the required-field check of `config_jsonschema` — no config
error at startup — yet the very first refresh fails inside
`oauth_request_body` with `KeyError` on `redirect_uri`, before any POST
is issued. -/
theorem C8_counterexample_redirect_uri_not_required :
    config_conforms cfgNoRedirect = true ∧
    oauth_request_body cfgNoRedirect = Except.error (PyErr.keyError "redirect_uri") ∧
    update_access_token cfgNoRedirect initState (some respGood) 1000 =
      ⟨some (PyErr.keyError "redirect_uri"), initState, []⟩ :=
  ⟨by decide, rfl, by decide⟩

/-- C8 (amended): `client_id`, `client_secret` and `refresh_token` are
declared required in the config schema, so a configuration missing any
of them is rejected at startup before any refresh; `redirect_uri` is
not declared in the schema at all, and a configuration missing it is
accepted at startup but fails inside the refresh with `KeyError` on
`redirect_uri`, with no POST issued. -/
theorem C8_amended_required_fields
    (cfg : Config) (s : TapState) (resp : Option HttpResponse) (T : Int) :
    ((alistLookup cfg "client_id" = Option.none ∨
      alistLookup cfg "client_secret" = Option.none ∨
      alistLookup cfg "refresh_token" = Option.none) →
      config_conforms cfg = false)
    ∧ (alistLookup cfg "redirect_uri" = Option.none →
      ∀ cid csec : String,
        alistLookup cfg "client_id" = some cid →
        alistLookup cfg "client_secret" = some csec →
        update_access_token cfg s resp T =
          ⟨some (PyErr.keyError "redirect_uri"), s, []⟩) := by
  constructor
  · intro h
    rcases h with h | h | h <;>
      simp [config_conforms, config_required_fields, h]
  · intro hru cid csec h1 h2
    unfold update_access_token oauth_request_payload oauth_request_body
    rw [h1, h2, hru]

/-- C8 amended witness: a config consisting only of `client_secret`
fails the startup required-field check. -/
theorem C8_witness_missing_client_id :
    config_conforms [("client_secret", "cs")] = false :=
  (C8_amended_required_fields [("client_secret", "cs")] initState Option.none 0).1
    (Or.inl rfl)

/-- C10: presence of the credential fields is decided by Python
truthiness: a credential whose access token is the empty string, or
whose stored expiry equals 0, is classified invalid by `is_token_valid`
exactly as when the field is `None`, and `auth_headers` triggers a
refresh in those states. -/
theorem C10_truthiness_decides_presence
    (tok exp : PyVal) (now rt : Int) (base : List (String × String))
    (cfg : Config) (resp : Option HttpResponse) :
    is_token_valid ⟨PyVal.vstr "", exp⟩ now = is_token_valid ⟨PyVal.vnone, exp⟩ now
    ∧ is_token_valid ⟨PyVal.vstr "", exp⟩ now = Except.ok false
    ∧ is_token_valid ⟨tok, PyVal.vint 0⟩ now = is_token_valid ⟨tok, PyVal.vnone⟩ now
    ∧ is_token_valid ⟨tok, PyVal.vint 0⟩ now = Except.ok false
    ∧ (auth_headers base cfg ⟨PyVal.vstr "", exp⟩ now rt resp).refreshCalls = 1
    ∧ (auth_headers base cfg ⟨tok, PyVal.vint 0⟩ now rt resp).refreshCalls = 1 := by
  have h0 : is_token_valid ⟨tok, PyVal.vint 0⟩ now = Except.ok false := by
    rw [is_token_valid_eq_int ⟨tok, PyVal.vint 0⟩ 0 now rfl]
    simp
  refine ⟨rfl, rfl, ?_, h0, ?_, ?_⟩
  · rw [h0, is_token_valid_eq_vnone ⟨tok, PyVal.vnone⟩ now rfl]
  · exact refreshCalls_one_of_invalid base cfg _ now rt resp rfl
  · exact refreshCalls_one_of_invalid base cfg _ now rt resp h0

end TapHubspot
